import Mathlib

/-!
Verification of the flow validation and serialization core of the
Bite-Speed chatbot flow builder (`src/utils/validation.ts`).

The repository's domain logic consists of two pure functions over a
snapshot of the flow graph:

* `validateFlow` classifies a `(nodes, edges)` snapshot as valid or
  invalid for saving, producing a human-readable reason on failure;
* `createFlowData` projects the snapshot onto a minimal serializable
  shape, dropping UI-only fields.

Below, both functions are embedded shallowly: React Flow's `Node` and
`Edge` objects become Lean structures carrying the fields the code
reads plus representative UI-only fields (`selected`, `dragging`) that
the serializer must drop and the validator must ignore; the JavaScript
`Set` built by insertion is modelled as a duplicate-free list built in
insertion order, so that `has` is list membership and `size` is list
length.
-/

namespace BiteSpeed

/-- 2D canvas position of a node (`position` field of a React Flow node). -/
structure Position where
  x : Int
  y : Int
deriving DecidableEq, Repr

/-- Type-specific payload of a node; the message variant carries a text string. -/
structure NodeData where
  text : String
deriving DecidableEq, Repr

/-- A React Flow node as the validator/serializer sees it: the fields the
code reads (`id`, `type`, `position`, `data`) plus UI-only fields
(`selected`, `dragging`) that `createFlowData` drops. -/
structure Node where
  id : String
  type : Option String
  position : Position
  data : NodeData
  selected : Bool
  dragging : Bool
deriving DecidableEq, Repr

/-- A React Flow edge: a directed connection from `source` to `target`,
with optional handle identifiers and a UI-only `selected` flag. -/
structure Edge where
  id : String
  source : String
  target : String
  sourceHandle : Option String
  targetHandle : Option String
  selected : Bool
deriving DecidableEq, Repr

/-- Return type of `validateFlow`: `isValid` flag and optional error message. -/
structure ValidationResult where
  isValid : Bool
  errorMessage : Option String
deriving DecidableEq, Repr

/-- One `Set.add` step: JavaScript sets ignore duplicates and keep
insertion order, modelled as appending when the element is new. -/
def insertId (s : List String) (x : String) : List String :=
  if s.contains x then s else s ++ [x]

/-- `connectedNodeIds`: the set of ids appearing as a source or target of
some edge, built by iterating over `edges` as in the code
(`edges.forEach(edge => { add(edge.source); add(edge.target) })`). -/
def connectedNodeIds (edges : List Edge) : List String :=
  edges.foldl (fun s e => insertId (insertId s e.source) e.target) []

/-- `disconnectedNodes`: nodes whose id is in no edge
(`nodes.filter(node => !connectedNodeIds.has(node.id))`). -/
def disconnectedNodes (nodes : List Node) (edges : List Edge) : List Node :=
  nodes.filter (fun n => !((connectedNodeIds edges).contains n.id))

/-- `nodesWithoutIncomingEdges`: in-degree-zero nodes
(`nodes.filter(node => !edges.some(edge => edge.target === node.id))`). -/
def nodesWithoutIncomingEdges (nodes : List Node) (edges : List Edge) : List Node :=
  nodes.filter (fun n => !(edges.any (fun e => e.target == n.id)))

/-- Error message of the multiple-disconnected-nodes rejection. -/
def multiDisconnectedMsg (count : Nat) : String :=
  "Cannot save Flow: " ++ toString count ++
    " nodes are completely disconnected. Please connect all nodes to create a valid conversation flow."

/-- Error message of the single-orphan rejection. -/
def singleDisconnectedMsg : String :=
  "Cannot save Flow: 1 node is disconnected from the main flow. Please connect all nodes to create a valid conversation path."

/-- Error message of the multiple-entry-points rejection. -/
def multiEntryMsg (count : Nat) : String :=
  "Cannot save Flow: " ++ toString count ++
    " nodes have no incoming connections. Only one starting node is allowed in a chatbot flow."

/-- Error message of the no-entry-point rejection. -/
def noEntryMsg : String :=
  "Cannot save Flow: No starting node found. At least one node must have no incoming connections to serve as the conversation entry point."

/-- The flow validator, translated branch for branch from `validateFlow`
in `src/utils/validation.ts`. -/
def validateFlow (nodes : List Node) (edges : List Edge) : ValidationResult :=
  if nodes.length ≤ 1 then
    ⟨true, none⟩
  else
    let dc := disconnectedNodes nodes edges
    if 1 < dc.length then
      ⟨false, some (multiDisconnectedMsg dc.length)⟩
    else if dc.length = 1 ∧ 0 < (connectedNodeIds edges).length then
      ⟨false, some singleDisconnectedMsg⟩
    else
      let entries := nodesWithoutIncomingEdges nodes edges
      if 1 < entries.length then
        ⟨false, some (multiEntryMsg entries.length)⟩
      else if 1 < nodes.length ∧ entries.length = 0 then
        ⟨false, some noEntryMsg⟩
      else
        ⟨true, none⟩

/-- Serialized node shape: exactly the fields `{id, type, position, data}`. -/
structure FlowDataNode where
  id : String
  type : Option String
  position : Position
  data : NodeData
deriving DecidableEq, Repr

/-- Serialized edge shape: exactly the fields
`{id, source, target, sourceHandle, targetHandle}`. -/
structure FlowDataEdge where
  id : String
  source : String
  target : String
  sourceHandle : Option String
  targetHandle : Option String
deriving DecidableEq, Repr

/-- Result shape of `createFlowData`. -/
structure FlowData where
  nodes : List FlowDataNode
  edges : List FlowDataEdge
deriving DecidableEq, Repr

/-- The serializer `createFlowData`: maps each node and each edge to its
projection, keeping only the essential fields, in input order. -/
def createFlowData (nodes : List Node) (edges : List Edge) : FlowData :=
  ⟨nodes.map (fun n => ⟨n.id, n.type, n.position, n.data⟩),
   edges.map (fun e => ⟨e.id, e.source, e.target, e.sourceHandle, e.targetHandle⟩)⟩

/-- Variant of `validateFlow` whose single-orphan branch omits the
`connectedNodeIds.size > 0` guard; used to state that the guard is
redundant. -/
def validateFlowNoGuard (nodes : List Node) (edges : List Edge) : ValidationResult :=
  if nodes.length ≤ 1 then
    ⟨true, none⟩
  else
    let dc := disconnectedNodes nodes edges
    if 1 < dc.length then
      ⟨false, some (multiDisconnectedMsg dc.length)⟩
    else if dc.length = 1 then
      ⟨false, some singleDisconnectedMsg⟩
    else
      let entries := nodesWithoutIncomingEdges nodes edges
      if 1 < entries.length then
        ⟨false, some (multiEntryMsg entries.length)⟩
      else if 1 < nodes.length ∧ entries.length = 0 then
        ⟨false, some noEntryMsg⟩
      else
        ⟨true, none⟩

/-- The only information of an edge that `validateFlow` reads: its
`(source, target)` pair. -/
def edgePair (e : Edge) : String × String := (e.source, e.target)

/-- `connectedNodeIds` computed from bare `(source, target)` pairs. -/
def connectedIdsOfPairs (pairs : List (String × String)) : List String :=
  pairs.foldl (fun s p => insertId (insertId s p.1) p.2) []

/-- `validateFlow` computed from bare node ids and `(source, target)`
pairs; `validateFlow` factors through this function, which shows its
result depends on nothing else of the snapshot. -/
def validateFlowIds (ids : List String) (pairs : List (String × String)) : ValidationResult :=
  if ids.length ≤ 1 then
    ⟨true, none⟩
  else
    let dc := ids.filter (fun i => !((connectedIdsOfPairs pairs).contains i))
    if 1 < dc.length then
      ⟨false, some (multiDisconnectedMsg dc.length)⟩
    else if dc.length = 1 ∧ 0 < (connectedIdsOfPairs pairs).length then
      ⟨false, some singleDisconnectedMsg⟩
    else
      let entries := ids.filter (fun i => !(pairs.any (fun p => p.2 == i)))
      if 1 < entries.length then
        ⟨false, some (multiEntryMsg entries.length)⟩
      else if 1 < ids.length ∧ entries.length = 0 then
        ⟨false, some noEntryMsg⟩
      else
        ⟨true, none⟩

/-- Sample message node used by concrete witnesses. -/
def exNode (i : String) : Node := ⟨i, some "textNode", ⟨0, 0⟩, ⟨"hello"⟩, false, false⟩

/-- Sample edge used by concrete witnesses. -/
def exEdge (i s t : String) : Edge := ⟨i, s, t, some "out", some "in", false⟩

/-! ## Helper lemmas -/

theorem mem_insertId {s : List String} {y x : String} :
    x ∈ insertId s y ↔ x ∈ s ∨ x = y := by
  unfold insertId
  split
  · rename_i h
    have hy : y ∈ s := by simpa using h
    constructor
    · exact Or.inl
    · rintro (h' | rfl)
      · exact h'
      · exact hy
  · simp [List.mem_append]

theorem mem_connectedNodeIds_aux (edges : List Edge) (s : List String) (x : String) :
    (x ∈ edges.foldl (fun s e => insertId (insertId s e.source) e.target) s) ↔
      x ∈ s ∨ ∃ e ∈ edges, e.source = x ∨ e.target = x := by
  induction edges generalizing s with
  | nil => simp
  | cons e es ih =>
      simp only [List.foldl_cons, ih, mem_insertId, List.mem_cons]
      constructor
      · rintro (((h | h) | h) | ⟨e', he', h'⟩)
        · exact Or.inl h
        · exact Or.inr ⟨e, Or.inl rfl, Or.inl h.symm⟩
        · exact Or.inr ⟨e, Or.inl rfl, Or.inr h.symm⟩
        · exact Or.inr ⟨e', Or.inr he', h'⟩
      · rintro (h | ⟨e', (rfl | he'), h'⟩)
        · exact Or.inl (Or.inl (Or.inl h))
        · rcases h' with h' | h'
          · exact Or.inl (Or.inl (Or.inr h'.symm))
          · exact Or.inl (Or.inr h'.symm)
        · exact Or.inr ⟨e', he', h'⟩

theorem mem_connectedNodeIds (edges : List Edge) (x : String) :
    x ∈ connectedNodeIds edges ↔ ∃ e ∈ edges, e.source = x ∨ e.target = x := by
  simpa using mem_connectedNodeIds_aux edges [] x

theorem disconnectedNodes_eq_nil (nodes : List Node) (edges : List Edge)
    (h : ∀ n ∈ nodes, ∃ e ∈ edges, e.source = n.id ∨ e.target = n.id) :
    disconnectedNodes nodes edges = [] := by
  rw [disconnectedNodes, List.filter_eq_nil_iff]
  intro n hn
  have hmem : n.id ∈ connectedNodeIds edges := (mem_connectedNodeIds edges n.id).mpr (h n hn)
  simp [hmem]

theorem connected_nonempty_of_single_disconnected (nodes : List Node) (edges : List Edge)
    (h2 : 2 ≤ nodes.length) (h1 : (disconnectedNodes nodes edges).length = 1) :
    0 < (connectedNodeIds edges).length := by
  have hlt : (disconnectedNodes nodes edges).length < nodes.length := by omega
  rw [disconnectedNodes] at hlt
  obtain ⟨n, _, hp⟩ := List.length_filter_lt_length_iff_exists.mp hlt
  have hmem : n.id ∈ connectedNodeIds edges := by
    simp only [Bool.not_eq_true', Bool.not_eq_false] at hp
    simpa using hp
  exact List.length_pos.mpr (List.ne_nil_of_mem hmem)

/-! ## Claims -/

/-- C2: for every snapshot whose node list has length 0 or 1,
`validateFlow` returns a valid result, for every possible edge list. -/
theorem C2_trivial_flows_always_valid (nodes : List Node) (edges : List Edge)
    (h : nodes.length ≤ 1) :
    validateFlow nodes edges = ⟨true, none⟩ := by
  simp [validateFlow, h]

theorem C2_trivial_flows_always_valid_witness :
    validateFlow [exNode "a"] [exEdge "e1" "x" "y", exEdge "e2" "y" "x"] = ⟨true, none⟩ :=
  C2_trivial_flows_always_valid _ _ (by decide)

/-- C4: with at least 2 nodes, an empty edge list is rejected with the
multiple-disconnected reason counting every node; more generally, whenever
more than one node appears in no edge, `validateFlow` rejects with the
multiple-disconnected reason whose count is the number of disconnected
nodes. -/
theorem C4_multiple_disconnected_rejected (nodes : List Node) (edges : List Edge)
    (h2 : 2 ≤ nodes.length) :
    (edges = [] → validateFlow nodes edges = ⟨false, some (multiDisconnectedMsg nodes.length)⟩) ∧
    (1 < (disconnectedNodes nodes edges).length →
      validateFlow nodes edges =
        ⟨false, some (multiDisconnectedMsg (disconnectedNodes nodes edges).length)⟩) := by
  have hgt : ¬ nodes.length ≤ 1 := by omega
  constructor
  · rintro rfl
    have hdc : disconnectedNodes nodes [] = nodes := by
      simp [disconnectedNodes, connectedNodeIds, List.filter_true]
    rw [validateFlow]
    simp only [hgt, if_false, hdc]
    have h1 : 1 < nodes.length := by omega
    simp [h1]
  · intro h1
    rw [validateFlow]
    simp [hgt, h1]

theorem C4_multiple_disconnected_rejected_witness :
    validateFlow [exNode "a", exNode "b", exNode "c"] [] =
      ⟨false, some (multiDisconnectedMsg 3)⟩ := by
  have h := (C4_multiple_disconnected_rejected
    [exNode "a", exNode "b", exNode "c"] [] (by decide)).1 rfl
  rw [h]
  rfl

/-- C5: with at least 2 nodes, when exactly one node appears in no edge
and the connected set is non-empty, `validateFlow` rejects with the
single-orphan reason. -/
theorem C5_single_orphan_rejected (nodes : List Node) (edges : List Edge)
    (h2 : 2 ≤ nodes.length)
    (hdc : (disconnectedNodes nodes edges).length = 1)
    (hconn : 0 < (connectedNodeIds edges).length) :
    validateFlow nodes edges = ⟨false, some singleDisconnectedMsg⟩ := by
  have hgt : ¬ nodes.length ≤ 1 := by omega
  rw [validateFlow]
  simp [hgt, hdc, hconn]

theorem C5_single_orphan_rejected_witness :
    validateFlow [exNode "a", exNode "b", exNode "c"] [exEdge "e1" "a" "b"] =
      ⟨false, some singleDisconnectedMsg⟩ :=
  C5_single_orphan_rejected _ _ (by decide) (by decide) (by decide)

/-- C1: with at least 2 nodes, when the snapshot passes both connectivity
branches (neither the more-than-one-disconnected branch nor the
single-orphan branch fires) and more than one node has in-degree zero,
`validateFlow` rejects with the multiple-entry-points reason counting
those nodes; the witness instantiates this at the two disjoint chains
A→B and C→D, which are rejected by this rule, not by the disconnection
check. -/
theorem C1_multiple_entry_points_rejected (nodes : List Node) (edges : List Edge)
    (h2 : 2 ≤ nodes.length)
    (hp1 : ¬ 1 < (disconnectedNodes nodes edges).length)
    (hp2 : ¬ ((disconnectedNodes nodes edges).length = 1 ∧ 0 < (connectedNodeIds edges).length))
    (hentry : 1 < (nodesWithoutIncomingEdges nodes edges).length) :
    validateFlow nodes edges =
      ⟨false, some (multiEntryMsg (nodesWithoutIncomingEdges nodes edges).length)⟩ := by
  have hgt : ¬ nodes.length ≤ 1 := by omega
  rw [validateFlow]
  simp [hgt, hp1, hp2, hentry]

theorem C1_multiple_entry_points_rejected_witness :
    validateFlow [exNode "A", exNode "B", exNode "C", exNode "D"]
        [exEdge "e1" "A" "B", exEdge "e2" "C" "D"] =
      ⟨false, some (multiEntryMsg 2)⟩ := by
  have h := C1_multiple_entry_points_rejected
    [exNode "A", exNode "B", exNode "C", exNode "D"]
    [exEdge "e1" "A" "B", exEdge "e2" "C" "D"]
    (by decide) (by decide) (by decide) (by decide)
  rw [h]
  decide

/-- C3: with more than 1 node, when every node has at least one incoming
edge (zero entry candidates, e.g. a cycle covering all nodes),
`validateFlow` rejects with the no-starting-node reason. -/
theorem C3_all_incoming_rejected (nodes : List Node) (edges : List Edge)
    (h2 : 2 ≤ nodes.length)
    (hin : ∀ n ∈ nodes, ∃ e ∈ edges, e.target = n.id) :
    validateFlow nodes edges = ⟨false, some noEntryMsg⟩ := by
  have hgt : ¬ nodes.length ≤ 1 := by omega
  have hdc : disconnectedNodes nodes edges = [] := by
    apply disconnectedNodes_eq_nil
    intro n hn
    obtain ⟨e, he, ht⟩ := hin n hn
    exact ⟨e, he, Or.inr ht⟩
  have hent : nodesWithoutIncomingEdges nodes edges = [] := by
    rw [nodesWithoutIncomingEdges, List.filter_eq_nil_iff]
    intro n hn
    obtain ⟨e, he, ht⟩ := hin n hn
    simp only [Bool.not_eq_true', Bool.not_eq_false, List.any_eq_true]
    exact ⟨e, he, by simp [ht]⟩
  rw [validateFlow]
  have h1 : 1 < nodes.length := by omega
  simp [hgt, hdc, hent, h1]

theorem C3_all_incoming_rejected_witness :
    validateFlow [exNode "A", exNode "B", exNode "C"]
        [exEdge "e1" "A" "B", exEdge "e2" "B" "C", exEdge "e3" "C" "A"] =
      ⟨false, some noEntryMsg⟩ :=
  C3_all_incoming_rejected _ _ (by decide) (by decide)

/-- C6: every snapshot in which each node appears in some edge and exactly
one node has in-degree zero is accepted; in particular a simple linear
chain A→B→C of distinct nodes (the witness) is accepted. -/
theorem C6_single_entry_chain_accepted (nodes : List Node) (edges : List Edge)
    (hcon : ∀ n ∈ nodes, ∃ e ∈ edges, e.source = n.id ∨ e.target = n.id)
    (hone : (nodesWithoutIncomingEdges nodes edges).length = 1) :
    validateFlow nodes edges = ⟨true, none⟩ := by
  by_cases hl : nodes.length ≤ 1
  · simp [validateFlow, hl]
  · have hdc : disconnectedNodes nodes edges = [] := disconnectedNodes_eq_nil nodes edges hcon
    rw [validateFlow]
    simp [hl, hdc, hone]

theorem C6_single_entry_chain_accepted_witness :
    validateFlow [exNode "A", exNode "B", exNode "C"]
        [exEdge "e1" "A" "B", exEdge "e2" "B" "C"] = ⟨true, none⟩ :=
  C6_single_entry_chain_accepted _ _ (by decide) (by decide)

/-- C9: the single-orphan branch with an empty connected set is
unreachable: with at least 2 nodes, exactly one disconnected node forces
the connected set to be non-empty, so the `connectedNodeIds.size > 0`
guard is redundant — `validateFlow` coincides with the variant that
omits it on every snapshot. -/
theorem C9_orphan_guard_redundant :
    (∀ (nodes : List Node) (edges : List Edge), 2 ≤ nodes.length →
      (disconnectedNodes nodes edges).length = 1 →
      0 < (connectedNodeIds edges).length) ∧
    (∀ (nodes : List Node) (edges : List Edge),
      validateFlow nodes edges = validateFlowNoGuard nodes edges) := by
  constructor
  · exact connected_nonempty_of_single_disconnected
  · intro nodes edges
    rw [validateFlow, validateFlowNoGuard]
    by_cases hl : nodes.length ≤ 1
    · simp [hl]
    · by_cases h1 : 1 < (disconnectedNodes nodes edges).length
      · simp [hl, h1]
      · by_cases hdc1 : (disconnectedNodes nodes edges).length = 1
        · have hpos : 0 < (connectedNodeIds edges).length :=
            connected_nonempty_of_single_disconnected nodes edges (by omega) hdc1
          simp [hl, h1, hdc1, hpos]
        · simp [hl, h1, hdc1]

theorem C9_orphan_guard_redundant_witness :
    0 < (connectedNodeIds [exEdge "e1" "a" "b"]).length :=
  C9_orphan_guard_redundant.1 [exNode "a", exNode "b", exNode "c"]
    [exEdge "e1" "a" "b"] (by decide) (by decide)

/-- C7: `createFlowData` preserves input order and lengths and emits, for
the i-th input node, exactly that node's `id`, `type`, `position` and
`data` fields, and for the i-th input edge exactly its `id`, `source`,
`target`, `sourceHandle` and `targetHandle` fields; every other field
(`selected`, `dragging`) is dropped, as the result types `FlowDataNode`
and `FlowDataEdge` carry no such field, and the function is total (it
never rejects). -/
theorem C7_serializer_projects_fields (nodes : List Node) (edges : List Edge) :
    (createFlowData nodes edges).nodes.length = nodes.length ∧
    (createFlowData nodes edges).edges.length = edges.length ∧
    (∀ i : Nat,
      ((createFlowData nodes edges).nodes[i]?).map FlowDataNode.id = (nodes[i]?).map Node.id ∧
      ((createFlowData nodes edges).nodes[i]?).map FlowDataNode.type = (nodes[i]?).map Node.type ∧
      ((createFlowData nodes edges).nodes[i]?).map FlowDataNode.position
        = (nodes[i]?).map Node.position ∧
      ((createFlowData nodes edges).nodes[i]?).map FlowDataNode.data = (nodes[i]?).map Node.data) ∧
    (∀ i : Nat,
      ((createFlowData nodes edges).edges[i]?).map FlowDataEdge.id = (edges[i]?).map Edge.id ∧
      ((createFlowData nodes edges).edges[i]?).map FlowDataEdge.source
        = (edges[i]?).map Edge.source ∧
      ((createFlowData nodes edges).edges[i]?).map FlowDataEdge.target
        = (edges[i]?).map Edge.target ∧
      ((createFlowData nodes edges).edges[i]?).map FlowDataEdge.sourceHandle
        = (edges[i]?).map Edge.sourceHandle ∧
      ((createFlowData nodes edges).edges[i]?).map FlowDataEdge.targetHandle
        = (edges[i]?).map Edge.targetHandle) := by
  refine ⟨by simp [createFlowData], by simp [createFlowData], ?_, ?_⟩ <;>
    intro i <;>
    simp [createFlowData, List.getElem?_map, Option.map_map, Function.comp_def]

/-- C8: `validateFlow` and `createFlowData` are pure functions of the
snapshot: in this embedding the node and edge lists are immutable values,
so the call cannot alter them, and two calls on equal inputs return
equal results (no hidden state). -/
theorem C8_pure_functions (n1 : List Node) (e1 : List Edge) (n2 : List Node) (e2 : List Edge)
    (hn : n1 = n2) (he : e1 = e2) :
    validateFlow n1 e1 = validateFlow n2 e2 ∧
    createFlowData n1 e1 = createFlowData n2 e2 := by
  subst hn he
  exact ⟨rfl, rfl⟩

theorem C8_pure_functions_witness :
    validateFlow [exNode "a", exNode "b"] [exEdge "e1" "a" "b"] =
      validateFlow [exNode "a", exNode "b"] [exEdge "e1" "a" "b"] ∧
    createFlowData [exNode "a", exNode "b"] [exEdge "e1" "a" "b"] =
      createFlowData [exNode "a", exNode "b"] [exEdge "e1" "a" "b"] :=
  C8_pure_functions _ _ _ _ rfl rfl

theorem any_map_pair (l : List Edge) (p : String × String → Bool) :
    (l.map edgePair).any p = l.any (fun e => p (edgePair e)) := by
  induction l with
  | nil => rfl
  | cons e es ih => simp [ih]

theorem connectedIdsOfPairs_map (edges : List Edge) :
    connectedIdsOfPairs (edges.map edgePair) = connectedNodeIds edges := by
  rw [connectedIdsOfPairs, connectedNodeIds, List.foldl_map]
  simp [edgePair]

theorem validateFlow_eq_ids (nodes : List Node) (edges : List Edge) :
    validateFlow nodes edges = validateFlowIds (nodes.map Node.id) (edges.map edgePair) := by
  rw [validateFlow, validateFlowIds, connectedIdsOfPairs_map]
  simp only [List.length_map, any_map_pair, edgePair, List.filter_map, Function.comp_def,
    disconnectedNodes, nodesWithoutIncomingEdges]

/-- C10: the result of `validateFlow` depends only on the node ids and
the `(source, target)` pairs of the edges — two snapshots agreeing on
those, whatever their positions, data, types, selection or drag flags,
or edge handles, validate identically. -/
theorem C10_noninterference (n1 : List Node) (e1 : List Edge) (n2 : List Node) (e2 : List Edge)
    (hn : n1.map Node.id = n2.map Node.id)
    (he : e1.map edgePair = e2.map edgePair) :
    validateFlow n1 e1 = validateFlow n2 e2 := by
  rw [validateFlow_eq_ids, validateFlow_eq_ids, hn, he]

theorem C10_noninterference_witness :
    validateFlow
        [⟨"A", some "textNode", ⟨0, 0⟩, ⟨"hi"⟩, false, false⟩,
         ⟨"B", some "textNode", ⟨1, 1⟩, ⟨"there"⟩, false, false⟩]
        [⟨"e1", "A", "B", some "out", some "in", false⟩] =
      validateFlow
        [⟨"A", none, ⟨5, 7⟩, ⟨"bye"⟩, true, true⟩,
         ⟨"B", some "otherType", ⟨9, 9⟩, ⟨"now"⟩, true, false⟩]
        [⟨"zzz", "A", "B", none, none, true⟩] :=
  C10_noninterference _ _ _ _ (by decide) (by decide)

end BiteSpeed
